import Mathlib

/-!
Verification development for the AlphaPulse order lifecycle and
profit-tracking engine.  Data model follows database/schema.sql
(ai_trading_orders, order_profit_tracking); the trigger evaluation,
tracking engine and aggregation logic are modelled from the repository's
specification and documentation (docs/FEATURES.md, the API reference),
since the backend service code is not among the sources.  Prices and
percentages are rationals, matching the exact DECIMAL columns of the
schema.
-/

set_option autoImplicit false

namespace AlphaPulse

/-- Trade direction stored in the `recommendation` column: BUY opens a long
position, SELL opens a short position, HOLD is advisory only (creation
accepts only BUY and SELL). -/
inductive Recommendation where
  | BUY
  | SELL
  | HOLD
deriving DecidableEq, Repr

/-- Order status column of `ai_trading_orders`:
OPEN / STOP_LOSS / TAKE_PROFIT_T1 / TAKE_PROFIT_T2 / TAKE_PROFIT_T3 / CLOSED. -/
inductive OrderStatus where
  | OPEN
  | STOP_LOSS
  | TAKE_PROFIT_T1
  | TAKE_PROFIT_T2
  | TAKE_PROFIT_T3
  | CLOSED
deriving DecidableEq, Repr

/-- A row of `ai_trading_orders` (the fields the engine reads and writes).
Nullable DECIMAL columns become `Option ℚ`; `closed_at` is an abstract
timestamp. -/
structure Order where
  id : Nat
  symbol : String
  recommendation : Recommendation
  entry_price : ℚ
  stop_loss : ℚ
  target_t1 : Option ℚ
  target_t2 : Option ℚ
  target_t3 : Option ℚ
  open_amount : Option ℚ
  status : OrderStatus
  closed_at : Option Nat
  closed_price : Option ℚ
  final_profit_percentage : Option ℚ
  is_win : Option Bool
deriving DecidableEq, Repr

/-- Modelled from the spec: profit percentage of the TriggerEvaluator
(backend `calculate-profit` logic is not among the sources).  The formulas
are those of docs/FEATURES.md 2.2: BUY (long) yields
`(current - entry) / entry * 100`, SELL (short) yields
`(entry - current) / entry * 100`.  HOLD orders are never evaluated
(creation accepts only BUY/SELL); the long formula is used as a default. -/
def profitPercentage (o : Order) (currentPrice : ℚ) : ℚ :=
  match o.recommendation with
  | .SELL => (o.entry_price - currentPrice) / o.entry_price * 100
  | _ => (currentPrice - o.entry_price) / o.entry_price * 100

/-- Modelled from the spec: stop-loss trigger test.  A long (BUY) order
triggers when the current price is at or below the stop; a short (SELL)
order triggers when it is at or above the stop. -/
def stopLossHit (o : Order) (currentPrice : ℚ) : Bool :=
  match o.recommendation with
  | .SELL => decide (o.stop_loss ≤ currentPrice)
  | _ => decide (currentPrice ≤ o.stop_loss)

/-- Modelled from the spec: a take-profit target is reached when price is at
or beyond it in the trade's direction. -/
def targetReached (o : Order) (currentPrice t : ℚ) : Bool :=
  match o.recommendation with
  | .SELL => decide (currentPrice ≤ t)
  | _ => decide (t ≤ currentPrice)

/-- Modelled from the spec: targets are examined in order T1, T2, T3; null
targets are skipped; the label kept is that of the furthest (last examined)
target reached. -/
def triggeredTarget (o : Order) (currentPrice : ℚ) : Option String :=
  [(o.target_t1, "T1"), (o.target_t2, "T2"), (o.target_t3, "T3")].foldl
    (fun acc x =>
      match x.1 with
      | none => acc
      | some t => if targetReached o currentPrice t then some x.2 else acc)
    none

/-- Result of one trigger evaluation, the `ProfitCalculationResult` of the
API reference (order identification fields omitted). -/
structure EvaluationResult where
  profit_percentage : ℚ
  is_stop_loss_triggered : Bool
  is_take_profit_triggered : Bool
  triggered_target : Option String
deriving DecidableEq, Repr

/-- Modelled from the spec: the pure TriggerEvaluator.  The stop-loss test
runs first and takes precedence: a crossed stop reports no take-profit
regardless of targets.  Otherwise the furthest reached target (if any) is
reported. -/
def evaluate (o : Order) (currentPrice : ℚ) : EvaluationResult :=
  if stopLossHit o currentPrice then
    { profit_percentage := profitPercentage o currentPrice
      is_stop_loss_triggered := true
      is_take_profit_triggered := false
      triggered_target := none }
  else
    let tt := triggeredTarget o currentPrice
    { profit_percentage := profitPercentage o currentPrice
      is_stop_loss_triggered := false
      is_take_profit_triggered := tt.isSome
      triggered_target := tt }

/-- The present (non-null) targets of an order paired with their labels, in
T1, T2, T3 order. -/
def presentTargets (o : Order) : List (ℚ × String) :=
  [(o.target_t1, "T1"), (o.target_t2, "T2"), (o.target_t3, "T3")].filterMap
    (fun x => x.1.map (fun t => (t, x.2)))

/-- Label of the last (furthest) element of a labelled target list that
passes the test, if any.  Used to characterise `triggeredTarget`. -/
def furthestReached (reached : ℚ → Bool) : List (ℚ × String) → Option String
  | [] => none
  | x :: xs =>
    match furthestReached reached xs with
    | some s => some s
    | none => if reached x.1 then some x.2 else none

/-- A row of `order_profit_tracking`: one point-in-time profit snapshot of
an order. -/
structure Snapshot where
  order_id : Nat
  current_price : ℚ
  profit_percentage : ℚ
  tracking_interval : String
  is_stop_loss_triggered : Bool
  is_take_profit_triggered : Bool
  triggered_target : Option String
deriving DecidableEq, Repr

/-- The two engine-owned tables of the durable store. -/
structure Store where
  orders : List Order
  snapshots : List Snapshot
deriving DecidableEq, Repr

/-- Error kinds surfaced by the engine (HTTP 400/404 payloads of the API
reference). -/
inductive EngineError where
  | OrderNotFound
  | OrderAlreadyClosed
  | PriceUnavailable
  | InvalidOrderParameters
deriving DecidableEq, Repr

/-- A price source: latest market price per symbol, or failure. -/
def PriceSource : Type := String → Option ℚ

/-- Look an order up by id. -/
def findOrder (s : Store) (id : Nat) : Option Order :=
  s.orders.find? (fun o => o.id == id)

/-- Close an order record: set a terminal status and stamp the close
fields (closed-at, closed-price, final-profit, win flag) together. -/
def closeWith (o : Order) (st : OrderStatus) (p pct : ℚ) (now : Nat) : Order :=
  { o with
    status := st
    closed_at := some now
    closed_price := some p
    final_profit_percentage := some pct
    is_win := some (decide (0 < pct)) }

/-- Modelled from the spec: the guarded status transition of the OrderStore
(`transitionOrder(id, expectedStatus, newStatus, closeFields)`): only a row
whose id matches and whose status still equals the expected one is
rewritten. -/
def transitionOrder (s : Store) (id : Nat) (expected newSt : OrderStatus)
    (p pct : ℚ) (now : Nat) : Store :=
  { s with
    orders := s.orders.map
      (fun o => if o.id == id && o.status == expected then closeWith o newSt p pct now else o) }

/-- Terminal status corresponding to an evaluation's trigger flags: a
crossed stop goes to STOP_LOSS, a reached target to its TAKE_PROFIT
status, otherwise the order stays OPEN (`none`). -/
def terminalStatus (r : EvaluationResult) : Option OrderStatus :=
  if r.is_stop_loss_triggered then some .STOP_LOSS
  else
    match r.triggered_target with
    | some "T1" => some .TAKE_PROFIT_T1
    | some "T2" => some .TAKE_PROFIT_T2
    | some "T3" => some .TAKE_PROFIT_T3
    | _ => none

/-- Snapshot row recorded for one evaluation. -/
def mkSnapshot (o : Order) (p : ℚ) (lbl : String) (r : EvaluationResult) : Snapshot :=
  { order_id := o.id
    current_price := p
    profit_percentage := r.profit_percentage
    tracking_interval := lbl
    is_stop_loss_triggered := r.is_stop_loss_triggered
    is_take_profit_triggered := r.is_take_profit_triggered
    triggered_target := r.triggered_target }

/-- Store with one freshly recorded snapshot appended. -/
def snapAppend (s : Store) (o : Order) (p : ℚ) (lbl : String) : Store :=
  { s with snapshots := s.snapshots ++ [mkSnapshot o p lbl (evaluate o p)] }

/-- Modelled from the spec: `evaluateOne` (POST /orders/{id}/calculate-profit).
Loads the order (404 if missing), rejects non-OPEN orders with
OrderAlreadyClosed, fetches the price (PriceUnavailable on failure), then
evaluates, appends a snapshot tagged with the caller's tracking interval
and, if a trigger fired, transitions the order to the terminal status with
the close fields stamped. -/
def evaluateOne (ps : PriceSource) (now : Nat) (lbl : String)
    (s : Store) (id : Nat) : Store × Except EngineError EvaluationResult :=
  match findOrder s id with
  | none => (s, .error .OrderNotFound)
  | some o =>
    if o.status ≠ .OPEN then (s, .error .OrderAlreadyClosed)
    else
      match ps o.symbol with
      | none => (s, .error .PriceUnavailable)
      | some p =>
        match terminalStatus (evaluate o p) with
        | none => (snapAppend s o p lbl, .ok (evaluate o p))
        | some st =>
          (transitionOrder (snapAppend s o p lbl) o.id .OPEN st p
            (evaluate o p).profit_percentage now, .ok (evaluate o p))

/-- One line of the `results` list of POST /orders/calculate-all-profits. -/
structure BatchEntry where
  order_id : Nat
  symbol : String
  profit_percentage : ℚ
deriving DecidableEq, Repr

/-- Per-order step of the batch pass: a non-OPEN order is left alone; an
OPEN order whose price is unavailable is skipped (left alone, no snapshot,
no result line); otherwise the order is evaluated, giving its possibly
transitioned row, its snapshot, and its result line. -/
def batchStep (ps : PriceSource) (now : Nat) (lbl : String) (o : Order) :
    Order × Option Snapshot × Option BatchEntry :=
  if o.status = .OPEN then
    match ps o.symbol with
    | none => (o, none, none)
    | some p =>
      (match terminalStatus (evaluate o p) with
        | none => o
        | some st => closeWith o st p (evaluate o p).profit_percentage now,
       some (mkSnapshot o p lbl (evaluate o p)),
       some ⟨o.id, o.symbol, (evaluate o p).profit_percentage⟩)
  else (o, none, none)

/-- Modelled from the spec: `evaluateAll` (POST /orders/calculate-all-profits).
Every OPEN order is evaluated independently; a per-order failure is caught
and the pass continues.  Following the documented response format, the
`results` list contains only the successful evaluations. -/
def evaluateAll (ps : PriceSource) (now : Nat) (lbl : String) (s : Store) :
    Store × List BatchEntry :=
  let stepped := s.orders.map (batchStep ps now lbl)
  ({ orders := stepped.map (fun x => x.1)
     snapshots := s.snapshots ++ stepped.filterMap (fun x => x.2.1) },
   stepped.filterMap (fun x => x.2.2))

/-- Modelled from the spec: manual close (DELETE /orders/{id}).  Rejects a
missing order, rejects a non-OPEN order with OrderAlreadyClosed, uses the
supplied price or else fetches one, computes the final profit with the
evaluator's percentage formula, and always transitions to CLOSED. -/
def closeOne (ps : PriceSource) (now : Nat) (s : Store) (id : Nat)
    (explicitPrice : Option ℚ) : Store × Except EngineError Order :=
  match findOrder s id with
  | none => (s, .error .OrderNotFound)
  | some o =>
    if o.status ≠ .OPEN then (s, .error .OrderAlreadyClosed)
    else
      match explicitPrice.orElse (fun _ => ps o.symbol) with
      | none => (s, .error .PriceUnavailable)
      | some p =>
        let pct := profitPercentage o p
        (transitionOrder s o.id .OPEN .CLOSED p pct now,
         .ok (closeWith o .CLOSED p pct now))

/-- Body of POST /orders (the fields the validation reads). -/
structure CreateOrderRequest where
  symbol : String
  recommendation : Recommendation
  entry_price : ℚ
  stop_loss : ℚ
  target_t1 : Option ℚ
  target_t2 : Option ℚ
  target_t3 : Option ℚ
  open_amount : Option ℚ
deriving DecidableEq, Repr

/-- Modelled from the spec: creation-time validation, following the
constraints documented in the API reference for POST /orders: the direction
must be BUY or SELL, entry_price must be > 0, and stop_loss must be below
the entry price for BUY and above it for SELL.  No constraint on the
take-profit targets is documented. -/
def validRequest (r : CreateOrderRequest) : Bool :=
  decide (0 < r.entry_price) &&
    match r.recommendation with
    | .BUY => decide (r.stop_loss < r.entry_price)
    | .SELL => decide (r.entry_price < r.stop_loss)
    | .HOLD => false

/-- The freshly stored OPEN order built from an accepted creation request. -/
def orderOfRequest (newId : Nat) (r : CreateOrderRequest) : Order :=
  { id := newId
    symbol := r.symbol
    recommendation := r.recommendation
    entry_price := r.entry_price
    stop_loss := r.stop_loss
    target_t1 := r.target_t1
    target_t2 := r.target_t2
    target_t3 := r.target_t3
    open_amount := r.open_amount
    status := .OPEN
    closed_at := none
    closed_price := none
    final_profit_percentage := none
    is_win := none }

/-- Modelled from the spec: POST /orders.  An invalid request is rejected
with InvalidOrderParameters before any write; a valid one appends a new
OPEN order. -/
def createOrder (s : Store) (newId : Nat) (r : CreateOrderRequest) :
    Store × Except EngineError Order :=
  if validRequest r then
    ({ s with orders := s.orders ++ [orderOfRequest newId r] }, .ok (orderOfRequest newId r))
  else (s, .error .InvalidOrderParameters)

/-- Adjacent-pairs check used to state the spec's price-chain invariant. -/
def strictChain (rel : ℚ → ℚ → Bool) : List ℚ → Bool
  | [] => true
  | [_] => true
  | a :: b :: rest => rel a b && strictChain rel (b :: rest)

/-- The spec's full creation invariant: for a long order,
stop-loss < entry < T1 < T2 < T3 over whichever targets are present, and
reversed for a short order.  Stated from the spec's words to compare with
the documented validation. -/
def specChainOk (r : CreateOrderRequest) : Bool :=
  let pres := [r.target_t1, r.target_t2, r.target_t3].filterMap id
  match r.recommendation with
  | .BUY => strictChain (fun a b => decide (a < b)) (r.stop_loss :: r.entry_price :: pres)
  | .SELL => strictChain (fun a b => decide (b < a)) (r.stop_loss :: r.entry_price :: pres)
  | .HOLD => false

/-- One engine operation on the store (results dropped): order creation,
single evaluation, batch evaluation, or manual close. -/
inductive Op where
  | create (newId : Nat) (r : CreateOrderRequest)
  | evalOne (ps : PriceSource) (now : Nat) (lbl : String) (id : Nat)
  | evalAll (ps : PriceSource) (now : Nat) (lbl : String)
  | closeOp (ps : PriceSource) (now : Nat) (id : Nat) (explicitPrice : Option ℚ)

/-- Effect of an operation on the store. -/
def applyOp : Op → Store → Store
  | .create newId r, s => (createOrder s newId r).1
  | .evalOne ps now lbl id, s => (evaluateOne ps now lbl s id).1
  | .evalAll ps now lbl, s => (evaluateAll ps now lbl s).1
  | .closeOp ps now id px, s => (closeOne ps now s id px).1

/-- The all-or-nothing close-fields invariant of one order row: OPEN iff
closed-at, closed-price and final-profit are all unset; non-OPEN iff all
three are set. -/
def wfOrder (o : Order) : Prop :=
  (o.status = .OPEN ↔
    o.closed_at = none ∧ o.closed_price = none ∧ o.final_profit_percentage = none) ∧
  (o.status ≠ .OPEN ↔
    o.closed_at.isSome = true ∧ o.closed_price.isSome = true ∧
      o.final_profit_percentage.isSome = true)

instance (o : Order) : Decidable (wfOrder o) := by
  unfold wfOrder; infer_instance

/-- A store whose order rows all satisfy the close-fields invariant. -/
def wfStore (s : Store) : Prop := ∀ o ∈ s.orders, wfOrder o

instance (s : Store) : Decidable (wfStore s) := by
  unfold wfStore; infer_instance

/-- Win count of the `order_statistics` view:
COUNT(CASE WHEN final_profit_percentage > 0 THEN 1 END). -/
def viewWinCount (l : List Order) : Nat :=
  (l.filter (fun o =>
    match o.final_profit_percentage with
    | some q => decide (0 < q)
    | none => false)).length

/-- Closed-order count of the `order_statistics` view:
COUNT(CASE WHEN final_profit_percentage IS NOT NULL THEN 1 END). -/
def viewClosedCount (l : List Order) : Nat :=
  (l.filter (fun o => o.final_profit_percentage.isSome)).length

/-- The win_rate column of the `order_statistics` view of
database/schema.sql: win count over NULLIF(closed count, 0) times 100; SQL
division by NULL yields NULL (`none`). -/
def winRate (l : List Order) : Option ℚ :=
  if viewClosedCount l = 0 then none
  else some ((viewWinCount l : ℚ) / (viewClosedCount l : ℚ) * 100)

/-- Terminal orders flagged as wins. -/
def winCountByFlag (l : List Order) : Nat :=
  (l.filter (fun o => !(o.status == .OPEN) && (o.is_win == some true))).length

/-- Terminal orders flagged as losses. -/
def lossCountByFlag (l : List Order) : Nat :=
  (l.filter (fun o => !(o.status == .OPEN) && (o.is_win == some false))).length

/-- Day-by-day profit sum: total final profit percentage of the orders
closed on a given day. -/
def dailyProfit (orders : List Order) (d : Nat) : ℚ :=
  ((orders.filter (fun o => o.closed_at == some d)).map
    (fun o => o.final_profit_percentage.getD 0)).sum

/-- Day-by-day profit amount: for each order closed that day,
open amount × final profit percentage / 100, summed (API reference 2.4:
daily_profit_amount = 开仓金额 × 收益百分比 / 100). -/
def dailyProfitAmount (orders : List Order) (d : Nat) : ℚ :=
  ((orders.filter (fun o => o.closed_at == some d)).map
    (fun o => o.open_amount.getD 0 * o.final_profit_percentage.getD 0 / 100)).sum

/-- One point of the profit curve (GET /orders/dashboard/profit-curve). -/
structure CurvePoint where
  day : Nat
  daily_profit : ℚ
  daily_profit_amount : ℚ
  cumulative_profit : ℚ
  cumulative_profit_amount : ℚ
deriving DecidableEq, Repr

/-- Running-total recursion over the day window. -/
def profitCurveAux (orders : List Order) (cp ca : ℚ) : List Nat → List CurvePoint
  | [] => []
  | d :: ds =>
    let dp := dailyProfit orders d
    let da := dailyProfitAmount orders d
    ⟨d, dp, da, cp + dp, ca + da⟩ :: profitCurveAux orders (cp + dp) (ca + da) ds

/-- Modelled from the spec: the cumulative profit curve.  Every day of the
requested window produces a point (days without closed orders contribute
zero); cumulative percentage and amount are prefix sums of the daily
values in chronological order. -/
def profitCurve (orders : List Order) (window : List Nat) : List CurvePoint :=
  profitCurveAux orders 0 0 window

/-- Prefix sums of a list of rationals (the i-th output is the sum of the
first i+1 inputs). -/
def prefixSums : List ℚ → List ℚ
  | [] => []
  | x :: xs => x :: (prefixSums xs).map (fun y => x + y)

/-- State of the create-order form of the TradingOrders page
(frontend TradingOrders component, `newOrder`). -/
structure NewOrderForm where
  symbol : String
  interval : String
  recommendation : Recommendation
  entry_price : ℚ
  stop_loss : ℚ
  target_t1 : ℚ
  target_t2 : ℚ
  target_t3 : ℚ
  leverage : ℚ
  quantity : ℚ
  open_amount : ℚ
deriving DecidableEq, Repr

/-- Initial `newOrder` state of the create-order modal: every price field
starts at the number 0 (targets included), leverage at 1. -/
def initialNewOrder : NewOrderForm :=
  { symbol := "BTCUSDT"
    interval := "4h"
    recommendation := .BUY
    entry_price := 0
    stop_loss := 0
    target_t1 := 0
    target_t2 := 0
    target_t3 := 0
    leverage := 1
    quantity := 0
    open_amount := 0 }

/-- The form's numeric input handler `parseFloat(e.target.value) || 0`:
an unparsable (empty) input — NaN, which is falsy — is coerced to the
number 0. -/
def coerceNumberInput (parsed : Option ℚ) : ℚ :=
  match parsed with
  | none => 0
  | some v => v

/-- Writing the three target inputs through the coercing handler. -/
def setTargets (f : NewOrderForm) (t1 t2 t3 : Option ℚ) : NewOrderForm :=
  { f with
    target_t1 := coerceNumberInput t1
    target_t2 := coerceNumberInput t2
    target_t3 := coerceNumberInput t3 }

/-- The submit button's enabled condition:
disabled = creatingOrder || !entry_price || !stop_loss, so submission only
requires a nonzero entry price and stop loss (JS number truthiness). -/
def submitEnabled (creating : Bool) (f : NewOrderForm) : Bool :=
  !creating && !(f.entry_price == 0) && !(f.stop_loss == 0)

/-- The JSON body POSTed on submit: `JSON.stringify(newOrder)` sends each
target as a number (never null or absent). -/
def requestBody (f : NewOrderForm) : CreateOrderRequest :=
  { symbol := f.symbol
    recommendation := f.recommendation
    entry_price := f.entry_price
    stop_loss := f.stop_loss
    target_t1 := some f.target_t1
    target_t2 := some f.target_t2
    target_t3 := some f.target_t3
    open_amount := some f.open_amount }

/-- A long order used by the spec's round-trip examples: entry 100, stop 95,
targets 105/110/115. -/
def exampleLong : Order :=
  { id := 1, symbol := "BTCUSDT", recommendation := .BUY
    entry_price := 100, stop_loss := 95
    target_t1 := some 105, target_t2 := some 110, target_t3 := some 115
    open_amount := some 1000, status := .OPEN
    closed_at := none, closed_price := none
    final_profit_percentage := none, is_win := none }

/-- A short order used by the spec's round-trip examples: entry 100,
stop 105. -/
def exampleShort : Order :=
  { id := 2, symbol := "ETHUSDT", recommendation := .SELL
    entry_price := 100, stop_loss := 105
    target_t1 := some 95, target_t2 := some 90, target_t3 := some 85
    open_amount := some 1000, status := .OPEN
    closed_at := none, closed_price := none
    final_profit_percentage := none, is_win := none }

/-- An open short SOL order, after the schema's third test row. -/
def exampleSolOpen : Order :=
  { id := 3, symbol := "SOLUSDT", recommendation := .SELL
    entry_price := 242, stop_loss := 255
    target_t1 := some 230, target_t2 := some 220, target_t3 := some 210
    open_amount := some 4850, status := .OPEN
    closed_at := none, closed_price := none
    final_profit_percentage := none, is_win := none }

/-- A closed winning order, after the schema's first test row (BTC long
closed at TAKE_PROFIT_T1 with a positive final profit). -/
def exampleClosedWin : Order :=
  { id := 4, symbol := "BTCUSDT", recommendation := .BUY
    entry_price := 94500, stop_loss := 92000
    target_t1 := some 97000, target_t2 := some 99000, target_t3 := some 102000
    open_amount := some 4725, status := .TAKE_PROFIT_T1
    closed_at := some 1, closed_price := some 97200
    final_profit_percentage := some 3, is_win := some true }

/-- A closed losing order, after the schema's third test row (SOL short
stopped out with a negative final profit). -/
def exampleClosedLoss : Order :=
  { id := 5, symbol := "SOLUSDT", recommendation := .SELL
    entry_price := 242, stop_loss := 255
    target_t1 := some 230, target_t2 := some 220, target_t3 := some 210
    open_amount := some 4850, status := .STOP_LOSS
    closed_at := some 2, closed_price := some 256
    final_profit_percentage := some (-6), is_win := some false }

/-- Mixed population for the win-rate example: one win, one still-open
order, one loss. -/
def exampleStatsOrders : List Order := [exampleClosedWin, exampleShort, exampleClosedLoss]

/-- A price source that knows BTCUSDT and SOLUSDT but fails for every other
symbol (in particular ETHUSDT). -/
def examplePriceSource : PriceSource :=
  fun sym => if sym == "BTCUSDT" then some 112 else if sym == "SOLUSDT" then some 240 else none

/-- A store with three OPEN orders for the batch-evaluation example. -/
def exampleStore3 : Store :=
  { orders := [exampleLong, exampleShort, exampleSolOpen], snapshots := [] }

/-- A store holding a single already-closed order. -/
def exampleStoreClosed : Store := { orders := [exampleClosedWin], snapshots := [] }

/-- A well-formed creation request (the API reference's example body). -/
def goodRequest : CreateOrderRequest :=
  { symbol := "BTCUSDT", recommendation := .BUY
    entry_price := 95000, stop_loss := 93000
    target_t1 := some 97000, target_t2 := some 99000, target_t3 := some 101000
    open_amount := some 950 }

/-- A creation request whose stop-loss/entry relation is fine but whose
take-profit target sits below the entry price, violating the spec's chain
invariant. -/
def badChainRequest : CreateOrderRequest :=
  { symbol := "BTCUSDT", recommendation := .BUY
    entry_price := 100, stop_loss := 95
    target_t1 := some 90, target_t2 := none, target_t3 := none
    open_amount := none }

/-- Closed order for the curve example: +2 percent on day 10, $1000 open. -/
def curveOrderA : Order :=
  { id := 6, symbol := "BTCUSDT", recommendation := .BUY
    entry_price := 100, stop_loss := 95
    target_t1 := none, target_t2 := none, target_t3 := none
    open_amount := some 1000, status := .CLOSED
    closed_at := some 10, closed_price := some 102
    final_profit_percentage := some 2, is_win := some true }

/-- Closed order for the curve example: -1 percent on day 12, $1000 open. -/
def curveOrderB : Order :=
  { id := 7, symbol := "BTCUSDT", recommendation := .BUY
    entry_price := 100, stop_loss := 95
    target_t1 := none, target_t2 := none, target_t3 := none
    open_amount := some 1000, status := .CLOSED
    closed_at := some 12, closed_price := some 99
    final_profit_percentage := some (-1), is_win := some false }

/-- The two closed orders of the 3-day curve example (day 11 has none). -/
def exampleCurveOrders : List Order := [curveOrderA, curveOrderB]

/-- C1: for every order with positive entry price and every observed price,
the evaluated profit percentage is `(price - entry) / entry * 100` for a
long (BUY) order and `(entry - price) / entry * 100` for a short (SELL)
order. -/
theorem c1_profit_formula (o : Order) (p : ℚ) (hpos : 0 < o.entry_price) :
    (o.recommendation = .BUY →
      (evaluate o p).profit_percentage = (p - o.entry_price) / o.entry_price * 100) ∧
    (o.recommendation = .SELL →
      (evaluate o p).profit_percentage = (o.entry_price - p) / o.entry_price * 100) := by
  constructor <;> intro h <;>
    simp [evaluate, profitPercentage, h] <;> split <;> rfl

/-- C1 witness: the spec's round-trip examples.  A long order with entry 100
at price 110 and a short order with entry 100 at price 90 both evaluate to
a profit percentage of 10. -/
theorem c1_profit_formula_witness :
    (evaluate exampleLong 110).profit_percentage = 10 ∧
    (evaluate exampleShort 90).profit_percentage = 10 := by
  constructor
  · have h := (c1_profit_formula exampleLong 110 (by norm_num [exampleLong])).1 rfl
    rw [h]; norm_num [exampleLong]
  · have h := (c1_profit_formula exampleShort 90 (by norm_num [exampleShort])).2 rfl
    rw [h]; norm_num [exampleShort]

/-- C2: the stop-loss condition is evaluated first and takes precedence.
For a long (BUY) order the stop triggers exactly when price ≤ stopLoss, for
a short (SELL) order exactly when price ≥ stopLoss, and whenever the stop is
crossed the evaluation reports no take-profit, regardless of targets. -/
theorem c2_stop_precedence (o : Order) (p : ℚ) :
    (o.recommendation = .BUY →
      ((evaluate o p).is_stop_loss_triggered = true ↔ p ≤ o.stop_loss)) ∧
    (o.recommendation = .SELL →
      ((evaluate o p).is_stop_loss_triggered = true ↔ o.stop_loss ≤ p)) ∧
    ((evaluate o p).is_stop_loss_triggered = true →
      (evaluate o p).is_take_profit_triggered = false ∧
      (evaluate o p).triggered_target = none) := by
  refine ⟨fun h => ?_, fun h => ?_, fun h => ?_⟩
  · by_cases hc : p ≤ o.stop_loss <;> simp [evaluate, stopLossHit, h, hc]
  · by_cases hc : o.stop_loss ≤ p <;> simp [evaluate, stopLossHit, h, hc]
  · unfold evaluate at h ⊢
    by_cases hs : stopLossHit o p = true
    · simp [hs]
    · simp [hs] at h

/-- C2 witness: the spec's precedence example.  Long order with entry 100,
stop 95, T1 = 105, evaluated at price 94: the stop is reported triggered
and no take-profit is reported, even though a target exists. -/
theorem c2_stop_precedence_witness :
    (evaluate exampleLong 94).is_stop_loss_triggered = true ∧
    (evaluate exampleLong 94).is_take_profit_triggered = false := by
  have h := c2_stop_precedence exampleLong 94
  have hstop : (evaluate exampleLong 94).is_stop_loss_triggered = true :=
    (h.1 rfl).mpr (by norm_num [exampleLong])
  exact ⟨hstop, (h.2.2 hstop).1⟩

/-- The furthest reached label is that of the last passing element. -/
lemma furthestReached_eq_getLast (reached : ℚ → Bool) (l : List (ℚ × String)) :
    furthestReached reached l =
      ((l.filter (fun x => reached x.1)).getLast?).map (fun x => x.2) := by
  induction l with
  | nil => rfl
  | cons x xs ih =>
    rw [furthestReached, ih, List.filter_cons]
    by_cases hr : reached x.1 = true
    · simp only [hr, if_true]
      rw [List.getLast?_cons]
      cases hgl : (xs.filter (fun x => reached x.1)).getLast? <;> simp [hgl]
    · rw [if_neg hr]
      cases hgl : (xs.filter (fun x => reached x.1)).getLast? <;> simp [hgl, hr]

/-- The target fold computes the furthest reached label of the flattened
(present-only) target list. -/
lemma foldl_furthest (reached : ℚ → Bool) (l : List (Option ℚ × String)) :
    ∀ acc : Option String,
      l.foldl
        (fun a x =>
          match x.1 with
          | none => a
          | some t => if reached t then some x.2 else a) acc =
      match furthestReached reached
          (l.filterMap (fun x => x.1.map (fun t => (t, x.2)))) with
      | some s => some s
      | none => acc := by
  induction l with
  | nil => intro acc; rfl
  | cons x rest ih =>
    intro acc
    rcases x with ⟨ot, s⟩
    rcases ot with _ | t
    · simpa using ih acc
    · rw [List.foldl_cons, ih]
      simp only [List.filterMap_cons]
      cases hfr : furthestReached reached
          (rest.filterMap (fun x => x.1.map (fun t => (t, x.2)))) <;>
        simp [furthestReached, hfr] <;>
        cases hr : reached t <;> simp [hr]

/-- C3: when the stop is not crossed, the reported target is the furthest
(last, in T1 → T2 → T3 order) reached target among the present ones — null
targets are skipped.  In particular, a long order with T1 = 105, T2 = 110,
T3 = 115 evaluated at price 112 reports "T2", not "T1". -/
theorem c3_furthest_target (o : Order) (p : ℚ) (hns : stopLossHit o p = false) :
    (evaluate o p).triggered_target =
      (((presentTargets o).filter (fun x => targetReached o p x.1)).getLast?).map
        (fun x => x.2) := by
  have hrepr : (evaluate o p).triggered_target = triggeredTarget o p := by
    simp [evaluate, hns]
  rw [hrepr]
  unfold triggeredTarget
  rw [foldl_furthest]
  have hp : ([(o.target_t1, "T1"), (o.target_t2, "T2"),
      (o.target_t3, "T3")].filterMap (fun x => x.1.map (fun t => (t, x.2)))) =
      presentTargets o := rfl
  rw [hp, furthestReached_eq_getLast]
  cases hgl : ((presentTargets o).filter (fun x => targetReached o p x.1)).getLast? <;>
    simp [hgl]

/-- C3 witness: exampleLong (T1 = 105, T2 = 110, T3 = 115) at price 112 —
the evaluator reports "T2" (the furthest reached target), not "T1". -/
theorem c3_furthest_target_witness :
    (evaluate exampleLong 112).triggered_target = some "T2" := by
  have h := c3_furthest_target exampleLong 112 (by decide)
  rw [h]; decide

/-- A terminal status computed from an evaluation is never OPEN. -/
lemma terminalStatus_ne_open {r : EvaluationResult} {st : OrderStatus}
    (h : terminalStatus r = some st) : st ≠ OrderStatus.OPEN := by
  unfold terminalStatus at h
  split at h
  · cases h; decide
  · split at h <;> cases h <;> decide

/-- Closing an order with a non-OPEN status yields a well-formed row: the
status is terminal and all three close fields are stamped together. -/
lemma wfOrder_closeWith (o : Order) (st : OrderStatus) (p pct : ℚ) (now : Nat)
    (hst : st ≠ OrderStatus.OPEN) : wfOrder (closeWith o st p pct now) := by
  constructor <;> simp [closeWith, hst]

/-- The batch step preserves the close-fields invariant of a row. -/
lemma wfOrder_batchStep (ps : PriceSource) (now : Nat) (lbl : String) (o : Order)
    (h : wfOrder o) : wfOrder (batchStep ps now lbl o).1 := by
  unfold batchStep
  by_cases hst : o.status = OrderStatus.OPEN
  · simp only [hst, if_true]
    cases hp : ps o.symbol
    · exact h
    · simp only
      cases ht : terminalStatus (evaluate o _)
      · simpa [ht] using h
      · simpa [ht] using wfOrder_closeWith o _ _ _ now (terminalStatus_ne_open ht)
  · simpa [hst] using h

/-- The guarded transition preserves the close-fields invariant of the
store whenever the new status is terminal. -/
lemma wfStore_transitionOrder (s : Store) (id : Nat) (newSt : OrderStatus)
    (p pct : ℚ) (now : Nat) (hnew : newSt ≠ OrderStatus.OPEN) (h : wfStore s) :
    wfStore (transitionOrder s id OrderStatus.OPEN newSt p pct now) := by
  intro o ho
  simp only [transitionOrder, List.mem_map] at ho
  obtain ⟨a, ha, rfl⟩ := ho
  by_cases hcond : (a.id == id && a.status == OrderStatus.OPEN) = true
  · simpa [hcond] using wfOrder_closeWith a newSt p pct now hnew
  · simpa [hcond] using h a ha

/-- C4: every engine operation preserves the all-or-nothing close-fields
invariant: in every reachable store, an order is OPEN iff closed-at,
closed-price and final-profit are all unset, and non-OPEN iff all three are
set. -/
theorem c4_close_fields_invariant (op : Op) (s : Store) (h : wfStore s) :
    wfStore (applyOp op s) := by
  cases op with
  | create newId r =>
    show wfStore (createOrder s newId r).1
    unfold createOrder
    cases hv : validRequest r
    · simpa [hv] using h
    · simp only [hv, if_true]
      intro o ho
      rcases List.mem_append.mp ho with hmem | hmem
      · exact h o hmem
      · have : o = orderOfRequest newId r := by simpa using hmem
        subst this
        constructor <;> simp [orderOfRequest]
  | evalOne ps now lbl id =>
    show wfStore (evaluateOne ps now lbl s id).1
    unfold evaluateOne
    cases hf : findOrder s id with
    | none => exact h
    | some o =>
      dsimp only
      by_cases hst : o.status ≠ OrderStatus.OPEN
      · rw [if_pos hst]
        exact h
      · rw [if_neg hst]
        cases hp : ps o.symbol with
        | none => exact h
        | some p =>
          dsimp only
          cases ht : terminalStatus (evaluate o p) with
          | none => exact h
          | some st =>
            exact wfStore_transitionOrder _ _ _ _ _ _ (terminalStatus_ne_open ht) h
  | evalAll ps now lbl =>
    show wfStore (evaluateAll ps now lbl s).1
    unfold evaluateAll
    intro o ho
    simp only [List.map_map, List.mem_map] at ho
    obtain ⟨a, ha, rfl⟩ := ho
    exact wfOrder_batchStep ps now lbl a (h a ha)
  | closeOp ps now id px =>
    show wfStore (closeOne ps now s id px).1
    unfold closeOne
    cases hf : findOrder s id with
    | none => exact h
    | some o =>
      dsimp only
      by_cases hst : o.status ≠ OrderStatus.OPEN
      · rw [if_pos hst]
        exact h
      · rw [if_neg hst]
        cases hp : px.orElse (fun _ => ps o.symbol) with
        | none => exact h
        | some p => exact wfStore_transitionOrder _ _ _ _ _ _ (by decide) h

/-- C4 witness: a concrete well-formed store stays well-formed through a
batch evaluation that closes one of its orders. -/
theorem c4_close_fields_invariant_witness :
    wfStore (applyOp (Op.evalAll examplePriceSource 5 "30m") exampleStore3) :=
  c4_close_fields_invariant (Op.evalAll examplePriceSource 5 "30m") exampleStore3
    (by decide)

/-- An order whose row an operation never rewrites stays in the store. -/
lemma mem_map_of_fix {α : Type} {l : List α} {g : α → α} {o : α}
    (ho : o ∈ l) (h : g o = o) : o ∈ l.map g :=
  h ▸ List.mem_map_of_mem g ho

/-- Orders in a terminal status are immutable: no engine operation rewrites
their row. -/
lemma terminal_immutable (op : Op) (s : Store) (o : Order)
    (ho : o ∈ s.orders) (hst : o.status ≠ OrderStatus.OPEN) :
    o ∈ (applyOp op s).orders := by
  have hbeq : (o.status == OrderStatus.OPEN) = false := by
    simpa using hst
  cases op with
  | create newId r =>
    show o ∈ (createOrder s newId r).1.orders
    unfold createOrder
    cases hv : validRequest r
    · simpa [hv] using ho
    · simp only [hv, if_true]
      exact List.mem_append_left _ ho
  | evalOne ps now lbl id =>
    show o ∈ (evaluateOne ps now lbl s id).1.orders
    unfold evaluateOne
    cases hf : findOrder s id with
    | none => exact ho
    | some o' =>
      dsimp only
      by_cases hso : o'.status ≠ OrderStatus.OPEN
      · rw [if_pos hso]
        exact ho
      · rw [if_neg hso]
        cases hp : ps o'.symbol with
        | none => exact ho
        | some p =>
          dsimp only
          cases ht : terminalStatus (evaluate o' p) with
          | none => exact ho
          | some st =>
            show o ∈ (transitionOrder _ _ _ _ _ _ _).orders
            unfold transitionOrder
            exact mem_map_of_fix ho (by simp [hbeq])
  | evalAll ps now lbl =>
    show o ∈ (evaluateAll ps now lbl s).1.orders
    unfold evaluateAll
    simp only [List.map_map]
    exact mem_map_of_fix ho (by simp [Function.comp, batchStep, hst])
  | closeOp ps now id px =>
    show o ∈ (closeOne ps now s id px).1.orders
    unfold closeOne
    cases hf : findOrder s id with
    | none => exact ho
    | some o' =>
      dsimp only
      by_cases hso : o'.status ≠ OrderStatus.OPEN
      · rw [if_pos hso]
        exact ho
      · rw [if_neg hso]
        cases hp : px.orElse (fun _ => ps o'.symbol) with
        | none => exact ho
        | some p =>
          show o ∈ (transitionOrder _ _ _ _ _ _ _).orders
          unfold transitionOrder
          exact mem_map_of_fix ho (by simp [hbeq])

/-- C5: evaluating a non-OPEN order fails with OrderAlreadyClosed and
leaves the store exactly as it was — no snapshot is appended and no status
changes; moreover no engine operation ever rewrites a terminal order's
row. -/
theorem c5_closed_order_rejected (ps : PriceSource) (now : Nat) (lbl : String)
    (s : Store) (id : Nat) (o : Order)
    (hfind : findOrder s id = some o) (hst : o.status ≠ OrderStatus.OPEN) :
    evaluateOne ps now lbl s id = (s, .error .OrderAlreadyClosed) ∧
    ∀ op : Op, o ∈ (applyOp op s).orders := by
  constructor
  · unfold evaluateOne
    rw [hfind]
    simp [hst]
  · intro op
    exact terminal_immutable op s o (List.mem_of_find?_eq_some hfind) hst

/-- C5 witness: evaluating the already-closed example order is rejected
without touching the one-order store. -/
theorem c5_closed_order_rejected_witness :
    evaluateOne examplePriceSource 0 "30m" exampleStoreClosed 4 =
      (exampleStoreClosed, .error .OrderAlreadyClosed) :=
  (c5_closed_order_rejected examplePriceSource 0 "30m" exampleStoreClosed 4
    exampleClosedWin (by decide) (by decide)).1

/-- C6 counterexample: the claim says any creation request violating
stop < entry < T1 < T2 < T3 is rejected before any write.  The documented
validation only constrains the stop-loss against the entry price, so a BUY
request with T1 below the entry price is accepted and stored even though
the spec's chain invariant fails on it. -/
theorem c6_counterexample :
    (createOrder ⟨[], []⟩ 1 badChainRequest).2 = .ok (orderOfRequest 1 badChainRequest) ∧
    (createOrder ⟨[], []⟩ 1 badChainRequest).1.orders = [orderOfRequest 1 badChainRequest] ∧
    specChainOk badChainRequest = false := by
  refine ⟨?_, ?_, by decide⟩ <;> rfl

/-- C6 (amended): creation enforces exactly the documented constraints —
entry price positive and stop-loss on the correct side of the entry — and
rejects a violating request with InvalidOrderParameters before any write;
target orderings are not validated.  A request passing the documented
validation is stored as a new OPEN order. -/
theorem c6_validation_documented (s : Store) (newId : Nat) (r : CreateOrderRequest) :
    (((createOrder s newId r).2 = .error .InvalidOrderParameters ∧
        (createOrder s newId r).1 = s) ↔ validRequest r = false) ∧
    (validRequest r = true →
      (createOrder s newId r).1.orders = s.orders ++ [orderOfRequest newId r]) := by
  constructor
  · unfold createOrder
    cases hv : validRequest r <;> simp [hv]
  · intro hv
    unfold createOrder
    simp [hv]

/-- C6 amended-claim witness: the API reference's example body passes the
documented validation and is appended to the store. -/
theorem c6_validation_documented_witness :
    (createOrder ⟨[], []⟩ 1 goodRequest).1.orders = [] ++ [orderOfRequest 1 goodRequest] :=
  (c6_validation_documented ⟨[], []⟩ 1 goodRequest).2 (by decide)

/-- The evaluator's profit percentage never depends on the trigger flags. -/
lemma evaluate_profit (o : Order) (p : ℚ) :
    (evaluate o p).profit_percentage = profitPercentage o p := by
  unfold evaluate
  by_cases h : stopLossHit o p = true <;> simp [h]

/-- The result lines of a batch pass are exactly the OPEN orders whose
symbol has a price, each with its computed profit percentage. -/
lemma batch_results_characterisation (ps : PriceSource) (now : Nat) (lbl : String) :
    ∀ l : List Order,
      (l.map (batchStep ps now lbl)).filterMap (fun x => x.2.2) =
        (l.filter (fun o => o.status == OrderStatus.OPEN)).filterMap
          (fun o => (ps o.symbol).map
            (fun p => BatchEntry.mk o.id o.symbol (profitPercentage o p))) := by
  intro l
  induction l with
  | nil => rfl
  | cons o t ih =>
    by_cases hst : o.status = OrderStatus.OPEN
    · cases hp : ps o.symbol <;>
        simp [batchStep, hst, hp, ih, evaluate_profit]
    · simp [batchStep, hst, ih]

/-- C7 (amended): `evaluateAll` evaluates every OPEN order independently —
a price failure on one order does not abort the pass; each successfully
priced OPEN order appears in the results with its computed P&L, while a
failing order is left untouched and is simply omitted from the results
rather than reported with a reason. -/
theorem c7_batch_independent (ps : PriceSource) (now : Nat) (lbl : String) (s : Store) :
    (evaluateAll ps now lbl s).2 =
      (s.orders.filter (fun o => o.status == OrderStatus.OPEN)).filterMap
        (fun o => (ps o.symbol).map
          (fun p => BatchEntry.mk o.id o.symbol (profitPercentage o p))) ∧
    ∀ o ∈ s.orders, ps o.symbol = none → o ∈ (evaluateAll ps now lbl s).1.orders := by
  constructor
  · show (s.orders.map (batchStep ps now lbl)).filterMap (fun x => x.2.2) = _
    exact batch_results_characterisation ps now lbl s.orders
  · intro o ho hp
    show o ∈ (s.orders.map (batchStep ps now lbl)).map (fun x => x.1)
    rw [List.map_map]
    refine mem_map_of_fix ho ?_
    unfold batchStep
    by_cases hst : o.status = OrderStatus.OPEN <;> simp [Function.comp, hst, hp]

/-- C7 amended-claim witness: with a price source failing for ETHUSDT, the
batch over three OPEN orders reports the two priced ones (the ETH order's
id 2 is absent) and leaves the ETH order untouched. -/
theorem c7_batch_independent_witness :
    exampleShort ∈ (evaluateAll examplePriceSource 5 "30m" exampleStore3).1.orders :=
  (c7_batch_independent examplePriceSource 5 "30m" exampleStore3).2 exampleShort
    (by decide) (by decide)

/-- C7 counterexample: the claim says every order of the batch appears in
the outcome list either as a success or as a failure with its reason.  With
the price source failing for exactly the ETH order (id 2, OPEN), the
results list names only orders 1 and 3 — the failing order appears nowhere
in it (the response carries no failure entries), though it is untouched. -/
theorem c7_counterexample :
    ((evaluateAll examplePriceSource 5 "30m" exampleStore3).2).map
        (fun e => e.order_id) = [1, 3] ∧
    exampleShort.status = OrderStatus.OPEN ∧
    exampleShort ∈ (evaluateAll examplePriceSource 5 "30m" exampleStore3).1.orders := by
  refine ⟨by decide, rfl, by decide⟩

/-- Under the close-fields conventions — final profit is set exactly on
non-OPEN orders, and the win flag records whether the final profit is
positive — the view's closed count splits into win and loss counts, and
the view's win count is the flag-based win count. -/
lemma c8_counts (l : List Order)
    (hclosed : ∀ o ∈ l, o.final_profit_percentage.isSome = true ↔ o.status ≠ OrderStatus.OPEN)
    (hwin : ∀ o ∈ l, o.status ≠ OrderStatus.OPEN →
      o.is_win = o.final_profit_percentage.map (fun q => decide (0 < q))) :
    viewClosedCount l = winCountByFlag l + lossCountByFlag l ∧
    viewWinCount l = winCountByFlag l := by
  induction l with
  | nil => exact ⟨rfl, rfl⟩
  | cons o t ih =>
    have hc := hclosed o (by simp)
    have hw := hwin o (by simp)
    have iht := ih (fun x hx => hclosed x (by simp [hx])) (fun x hx => hwin x (by simp [hx]))
    unfold viewClosedCount viewWinCount winCountByFlag lossCountByFlag at iht ⊢
    by_cases hst : o.status = OrderStatus.OPEN
    · have hfpp : o.final_profit_percentage = none := by
        cases hfp : o.final_profit_percentage with
        | none => rfl
        | some q => simp [hfp, hst] at hc
      simp [List.filter_cons, hst, hfpp, iht.1, iht.2]
    · obtain ⟨q, hq⟩ : ∃ q, o.final_profit_percentage = some q := by
        have hsome := hc.mpr hst
        cases hfp : o.final_profit_percentage with
        | none => simp [hfp] at hsome
        | some q => exact ⟨q, rfl⟩
      have hiw : o.is_win = some (decide (0 < q)) := by
        rw [hw hst, hq]; rfl
      by_cases hpos : (0 : ℚ) < q
      · simp [List.filter_cons, hst, hq, hiw, hpos, iht.1, iht.2]
        omega
      · simp [List.filter_cons, hst, hq, hiw, hpos, iht.1, iht.2]
        omega

/-- C8: under the same conventions, the view's win rate is
winCount / (winCount + lossCount) * 100 counting only terminal orders
(OPEN orders never count), and it is NULL — not 0 and not an error — when
there are no closed orders. -/
theorem c8_win_rate (l : List Order)
    (hclosed : ∀ o ∈ l, o.final_profit_percentage.isSome = true ↔ o.status ≠ OrderStatus.OPEN)
    (hwin : ∀ o ∈ l, o.status ≠ OrderStatus.OPEN →
      o.is_win = o.final_profit_percentage.map (fun q => decide (0 < q))) :
    winRate l =
      (if winCountByFlag l + lossCountByFlag l = 0 then none
       else some ((winCountByFlag l : ℚ) /
         ((winCountByFlag l : ℚ) + (lossCountByFlag l : ℚ)) * 100)) := by
  obtain ⟨h1, h2⟩ := c8_counts l hclosed hwin
  unfold winRate
  rw [h1, h2]
  by_cases h0 : winCountByFlag l + lossCountByFlag l = 0
  · simp [h0]
  · simp only [h0, if_false]
    push_cast
    ring_nf

/-- C8 witness: one win, one open order, one loss — the view's win rate is
1 / (1 + 1) * 100 = 50, with the open order not counted. -/
theorem c8_win_rate_witness : winRate exampleStatsOrders = some 50 := by
  have hW : winCountByFlag exampleStatsOrders = 1 := by decide
  have hL : lossCountByFlag exampleStatsOrders = 1 := by decide
  rw [c8_win_rate exampleStatsOrders (by decide) (by decide), hW, hL]
  norm_num

/-- The curve emits exactly one point per window day, in order. -/
lemma profitCurveAux_days (orders : List Order) :
    ∀ (ds : List Nat) (cp ca : ℚ),
      (profitCurveAux orders cp ca ds).map (fun x => x.day) = ds := by
  intro ds
  induction ds with
  | nil => intro cp ca; rfl
  | cons d t ih => intro cp ca; simp [profitCurveAux, ih]

/-- Cumulative percentages are the running prefix sums of the daily
percentages, shifted by the starting accumulator. -/
lemma profitCurveAux_cum (orders : List Order) :
    ∀ (ds : List Nat) (cp ca : ℚ),
      (profitCurveAux orders cp ca ds).map (fun x => x.cumulative_profit) =
        (prefixSums (ds.map (dailyProfit orders))).map (fun y => cp + y) := by
  intro ds
  induction ds with
  | nil => intro cp ca; rfl
  | cons d t ih =>
    intro cp ca
    simp only [profitCurveAux, List.map_cons, prefixSums, ih, List.map_map]
    have hfg : (fun y => cp + dailyProfit orders d + y) =
        ((fun y => cp + y) ∘ fun y => dailyProfit orders d + y) := by
      funext y
      simp only [Function.comp]
      ring
    rw [hfg]

/-- Cumulative amounts are the running prefix sums of the daily amounts,
shifted by the starting accumulator. -/
lemma profitCurveAux_cumAmount (orders : List Order) :
    ∀ (ds : List Nat) (cp ca : ℚ),
      (profitCurveAux orders cp ca ds).map (fun x => x.cumulative_profit_amount) =
        (prefixSums (ds.map (dailyProfitAmount orders))).map (fun y => ca + y) := by
  intro ds
  induction ds with
  | nil => intro cp ca; rfl
  | cons d t ih =>
    intro cp ca
    simp only [profitCurveAux, List.map_cons, prefixSums, ih, List.map_map]
    have hfg : (fun y => ca + dailyProfitAmount orders d + y) =
        ((fun y => ca + y) ∘ fun y => dailyProfitAmount orders d + y) := by
      funext y
      simp only [Function.comp]
      ring
    rw [hfg]

/-- C9: the profit curve emits one point for every day of the requested
window (days without closed orders included, with zero contribution), and
its cumulative percentage and cumulative amount columns are the prefix
sums, in chronological order, of the daily profit sums and of the daily
amounts (open amount × daily percentage / 100).  The 3-day example with
daily profits +2, none, -1 on $1000 each yields cumulative percentages
[2, 2, 1] and cumulative amounts [20, 20, 10]. -/
theorem c9_profit_curve (orders : List Order) (window : List Nat) :
    (profitCurve orders window).map (fun x => x.day) = window ∧
    (profitCurve orders window).map (fun x => x.cumulative_profit) =
      prefixSums (window.map (dailyProfit orders)) ∧
    (profitCurve orders window).map (fun x => x.cumulative_profit_amount) =
      prefixSums (window.map (dailyProfitAmount orders)) ∧
    (profitCurve exampleCurveOrders [10, 11, 12]).map
      (fun x => x.cumulative_profit) = [2, 2, 1] ∧
    (profitCurve exampleCurveOrders [10, 11, 12]).map
      (fun x => x.cumulative_profit_amount) = [20, 20, 10] := by
  refine ⟨profitCurveAux_days orders window 0 0, ?_, ?_, ?_, ?_⟩
  · rw [profitCurve, profitCurveAux_cum]
    simp
  · rw [profitCurve, profitCurveAux_cumAmount]
    simp
  · norm_num [profitCurve, profitCurveAux, dailyProfit, dailyProfitAmount,
      exampleCurveOrders, curveOrderA, curveOrderB, List.filter_cons]
  · norm_num [profitCurve, profitCurveAux, dailyProfit, dailyProfitAmount,
      exampleCurveOrders, curveOrderA, curveOrderB, List.filter_cons]

/-- C10: at the order-creation form, omitted take-profit targets are
submitted as the number 0, never as null: the form initialises the three
targets to 0, the input handler coerces an empty (unparsable) input to 0,
the submit guard only requires a nonzero entry price and stop loss and
ignores the targets entirely, and the POSTed body always carries each
target as a number (in particular 0 for untouched targets) rather than
null. -/
theorem c10_targets_default_zero (creating : Bool) (f : NewOrderForm)
    (t1 t2 t3 : Option ℚ) :
    (initialNewOrder.target_t1 = 0 ∧ initialNewOrder.target_t2 = 0 ∧
      initialNewOrder.target_t3 = 0) ∧
    coerceNumberInput none = 0 ∧
    submitEnabled creating (setTargets f t1 t2 t3) = submitEnabled creating f ∧
    ((requestBody (setTargets f none none none)).target_t1 = some 0 ∧
      (requestBody (setTargets f none none none)).target_t2 = some 0 ∧
      (requestBody (setTargets f none none none)).target_t3 = some 0) ∧
    ((requestBody f).target_t1 = some f.target_t1 ∧
      (requestBody f).target_t2 = some f.target_t2 ∧
      (requestBody f).target_t3 = some f.target_t3) := by
  refine ⟨⟨rfl, rfl, rfl⟩, rfl, rfl, ⟨rfl, rfl, rfl⟩, rfl, rfl, rfl⟩

end AlphaPulse
